import Mathlib

/-!
Shallow embedding of the Intcode virtual machine from this repository.

Two incarnations of the interpreter are embedded, each from its own
source file:

* `Intcode.Day9` models `src/rust/2019/src/bin/9/main.rs` (`run_program`,
  `get_param` closure, `get_parameter_modes`, `ParameterModes::try_from`):
  Position / Immediate / Relative parameter modes, a relative-base
  register, and dynamically growable memory (`Vec::resize_with`).
* `Intcode.Day7` models `src/rust/2019/src/bin/7/main.rs` (`run_program`
  and the non-feedback harness `find_max_thruster_val`): Position /
  Immediate modes only, bounds-checked position reads, no memory growth.

Machine integers (`isize`) are modelled as mathematical `Int`; memory is a
`List Int`; the streaming input source is a `List Int` consumed in order;
the output callback is modelled by accumulating emitted values in a list.
The Rust `loop` is modelled with explicit fuel: `runFuel fuel st = none`
means the run was not finished within `fuel` decode/execute steps.
A Rust `Vec` indexing panic (which aborts the process rather than
returning `Err`) is modelled by the distinguished error
`RunError.indexOutOfBounds`.
-/

namespace Intcode

/-- Errors of the interpreter. Each constructor corresponds to one `bail!`,
`ensure!` or `.ok_or(anyhow!(..))` site in the source (the names follow the
spec's error taxonomy where it has a name for the site):

* `negativeOpcode` — "Found a negative integer where an opcode was expected"
* `unknownParameterMode d` — "Unknown parameter mode: d" (`ParameterModes::try_from`)
* `parameterNotFound` — "Parameter not found"
* `invalidWriteMode` — "Invalid argument for opcode ..." (the `ensure!` that a
  write destination is not Immediate)
* `negativeAddress raw` — "The program is attempting to access a negative
  index: raw" (day 9) / "Found a negative integer where a position param was
  expected" (day 7)
* `invalidResultIndex` — day 7 only: "Invalid result index for opcode ..."
  (a bounds-checked Position read, day 7 memory never grows)
* `negativeJump` — "Found a negative integer where a jump point was expected"
* `missingInput` — "Found an input opcode but no input was provided"
* `unknownOpcode op` — "Encountered an unknown opcode: op"
* `indexOutOfBounds` — not an `anyhow::Error` return but a Rust `Vec` index
  panic: `program[instruction_pointer]` at an out-of-range instruction
  pointer, or (day 7) `program[result_idx] = ..` at an out-of-range write
  destination. It aborts the process. -/
inductive RunError where
  | negativeOpcode : RunError
  | unknownParameterMode : Nat → RunError
  | parameterNotFound : RunError
  | invalidWriteMode : RunError
  | negativeAddress : Int → RunError
  | invalidResultIndex : RunError
  | negativeJump : RunError
  | missingInput : RunError
  | unknownOpcode : Nat → RunError
  | indexOutOfBounds : RunError
deriving DecidableEq

/-- Decimal digits of a natural number, least significant first, with a
structural fuel argument (`n` itself is always enough fuel). This models the
`digits_iterator` crate's `opcode.digits().rev()` sequence: for `n > 0` it is
exactly the reversed digit list, and for `n = 0` it is `[]` where the crate
yields `[0]` — the two agree after the `.skip(2)` the source always applies. -/
def digitsLEAux : Nat → Nat → List Nat
  | 0, _ => []
  | _ + 1, 0 => []
  | fuel + 1, n + 1 => (n + 1) % 10 :: digitsLEAux fuel ((n + 1) / 10)

/-- Decimal digits, least significant first: `digitsLE 1002 = [2, 0, 0, 1]`. -/
def digitsLE (n : Nat) : List Nat := digitsLEAux n n

/-- The digits of an instruction cell above the low two: this is what
`opcode.digits().rev().skip(2)` iterates over in `get_parameter_modes`. -/
def modeDigits (opcode : Nat) : List Nat := (digitsLE opcode).drop 2

namespace Day9

/-- The `ParameterModes` enum of `src/rust/2019/src/bin/9/main.rs`. -/
inductive ParamMode where
  | position : ParamMode
  | immediate : ParamMode
  | relative : ParamMode
deriving DecidableEq

/-- `ParameterModes::try_from` (day 9): digit 0, 1, 2 are the three modes,
anything else is a fatal "Unknown parameter mode" error. -/
def parameterModeOfDigit (d : Nat) : Except RunError ParamMode :=
  if d = 0 then Except.ok ParamMode.position
  else if d = 1 then Except.ok ParamMode.immediate
  else if d = 2 then Except.ok ParamMode.relative
  else Except.error (RunError.unknownParameterMode d)

/-- The `try_collect` of `get_parameter_modes`: convert every digit,
short-circuiting at the first failing digit. -/
def collectModes : List Nat → Except RunError (List ParamMode)
  | [] => Except.ok []
  | d :: rest =>
    match parameterModeOfDigit d with
    | Except.error e => Except.error e
    | Except.ok m =>
      match collectModes rest with
      | Except.error e => Except.error e
      | Except.ok ms => Except.ok (m :: ms)

/-- `get_parameter_modes` (day 9): the digits above the low two, least
significant first, each decoded by `ParameterModes::try_from`. -/
def getParameterModes (opcode : Nat) : Except RunError (List ParamMode) :=
  collectModes (modeDigits opcode)

/-- The raw index computed in `get_param` for a Position or Relative mode
parameter: `relative_base + param_value` in Relative mode, `param_value`
otherwise (lines 79–83 of the day 9 source). -/
def rawIndex (relativeBase : Int) (mode : ParamMode) (paramValue : Int) : Int :=
  if mode = ParamMode.relative then relativeBase + paramValue else paramValue

/-- Memory growth as performed by `get_param`:
`if idx >= program.len() { program.resize_with(idx + 1, || 0); }`. -/
def growMem (program : List Int) (idx : Nat) : List Int :=
  if program.length ≤ idx then
    program ++ List.replicate (idx + 1 - program.length) 0
  else program

/-- The `get_param` closure of day 9's `run_program`. Given the memory, the
current instruction pointer and relative base, the decoded mode list, the
parameter position and the `need_write` flag, it returns the parameter's
value (for reads) or its resolved raw address (for writes), together with
the possibly grown memory (the closure mutates `program` in place). Failure
cases, in source order: missing parameter cell, Immediate mode used as a
write destination, negative computed address. -/
def getParam (program : List Int) (ip : Nat) (relativeBase : Int)
    (modes : List ParamMode) (param : Nat) (needWrite : Bool) :
    Except RunError (Int × List Int) :=
  match program.get? (ip + param + 1) with
  | none => Except.error RunError.parameterNotFound
  | some paramValue =>
    let paramMode := modes.getD param ParamMode.position
    if needWrite = true ∧ paramMode = ParamMode.immediate then
      Except.error RunError.invalidWriteMode
    else
      match paramMode with
      | ParamMode.immediate => Except.ok (paramValue, program)
      | _ =>
        let rawIdx := rawIndex relativeBase paramMode paramValue
        if rawIdx < 0 then Except.error (RunError.negativeAddress rawIdx)
        else
          let idx := rawIdx.toNat
          let grown := growMem program idx
          if needWrite then Except.ok (rawIdx, grown)
          else Except.ok ((grown.get? idx).getD 0, grown)

/-- The state threaded through the day 9 `run_program` loop: the (growable)
memory, the instruction pointer, the relative base, the not-yet-consumed
input stream, and the outputs emitted so far via `output_fn`. -/
structure VMState where
  program : List Int
  ip : Nat
  relativeBase : Int
  inputs : List Int
  outputs : List Int
deriving DecidableEq

/-- Outcome of one iteration of the day 9 `loop`. -/
inductive StepResult where
  | next : VMState → StepResult
  | halted : VMState → StepResult
  | fail : RunError → StepResult
deriving DecidableEq

/-- The inner `match opcode % 100` of the arithmetic/comparison arm:
`1` adds, `2` multiplies, `7` stores `(x < y) as isize`, `8` stores
`(x == y) as isize`. -/
def binaryOpResult (op2 : Nat) (x y : Int) : Int :=
  if op2 = 1 then x + y
  else if op2 = 2 then x * y
  else if op2 = 7 then (if x < y then 1 else 0)
  else (if x = y then 1 else 0)

/-- One iteration of day 9's `run_program` loop: fetch the cell at the
instruction pointer (a raw `Vec` index — out of range is a panic, not an
`Err`), reject negative opcodes, decode the parameter modes, then dispatch
on `opcode % 100` exactly as the source's `match` does, threading the
possibly grown memory through the successive `get_param` calls. -/
def step (st : VMState) : StepResult :=
  match st.program.get? st.ip with
  | none => StepResult.fail RunError.indexOutOfBounds
  | some opInt =>
    if opInt < 0 then StepResult.fail RunError.negativeOpcode
    else
      let opcode := opInt.toNat
      match getParameterModes opcode with
      | Except.error e => StepResult.fail e
      | Except.ok modes =>
        let op2 := opcode % 100
        if op2 = 1 ∨ op2 = 2 ∨ op2 = 7 ∨ op2 = 8 then
          match getParam st.program st.ip st.relativeBase modes 0 false with
          | Except.error e => StepResult.fail e
          | Except.ok (x, prog1) =>
            match getParam prog1 st.ip st.relativeBase modes 1 false with
            | Except.error e => StepResult.fail e
            | Except.ok (y, prog2) =>
              match getParam prog2 st.ip st.relativeBase modes 2 true with
              | Except.error e => StepResult.fail e
              | Except.ok (rawDst, prog3) =>
                let dst := rawDst.toNat
                if dst < prog3.length then
                  StepResult.next { st with
                    program := prog3.set dst (binaryOpResult op2 x y),
                    ip := st.ip + 4 }
                else StepResult.fail RunError.indexOutOfBounds
        else if op2 = 5 ∨ op2 = 6 then
          match getParam st.program st.ip st.relativeBase modes 0 false with
          | Except.error e => StepResult.fail e
          | Except.ok (checkedValue, prog1) =>
            match getParam prog1 st.ip st.relativeBase modes 1 false with
            | Except.error e => StepResult.fail e
            | Except.ok (jumpInt, prog2) =>
              if jumpInt < 0 then StepResult.fail RunError.negativeJump
              else
                if (if op2 = 5 then checkedValue ≠ 0 else checkedValue = 0) then
                  StepResult.next { st with program := prog2, ip := jumpInt.toNat }
                else
                  StepResult.next { st with program := prog2, ip := st.ip + 3 }
        else if op2 = 3 then
          match st.inputs with
          | [] => StepResult.fail RunError.missingInput
          | i :: rest =>
            match getParam st.program st.ip st.relativeBase modes 0 true with
            | Except.error e => StepResult.fail e
            | Except.ok (rawDst, prog1) =>
              let dst := rawDst.toNat
              if dst < prog1.length then
                StepResult.next { st with
                  program := prog1.set dst i,
                  inputs := rest,
                  ip := st.ip + 2 }
              else StepResult.fail RunError.indexOutOfBounds
        else if op2 = 4 then
          match getParam st.program st.ip st.relativeBase modes 0 false with
          | Except.error e => StepResult.fail e
          | Except.ok (v, prog1) =>
            StepResult.next { st with
              program := prog1,
              outputs := st.outputs ++ [v],
              ip := st.ip + 2 }
        else if op2 = 9 then
          match getParam st.program st.ip st.relativeBase modes 0 false with
          | Except.error e => StepResult.fail e
          | Except.ok (v, prog1) =>
            StepResult.next { st with
              program := prog1,
              relativeBase := st.relativeBase + v,
              ip := st.ip + 2 }
        else if op2 = 99 then
          StepResult.halted st
        else StepResult.fail (RunError.unknownOpcode op2)

/-- Day 9's `run_program` loop with explicit fuel. `none` means the loop did
not finish within `fuel` iterations; `some (result, outputs)` pairs the
function's `Result<Vec<isize>, _>` (final memory on success) with the values
handed to `output_fn`, in emission order. -/
def runFuel : Nat → VMState → Option (Except RunError (List Int) × List Int)
  | 0, _ => none
  | fuel + 1, st =>
    match step st with
    | StepResult.next st2 => runFuel fuel st2
    | StepResult.halted st2 => some (Except.ok st2.program, st2.outputs)
    | StepResult.fail e => some (Except.error e, st.outputs)

/-- The state at entry of `run_program`: `instruction_pointer = 0`,
`relative_base = 0`, nothing consumed, nothing emitted. -/
def initState (program : List Int) (inputs : List Int) : VMState :=
  { program := program, ip := 0, relativeBase := 0,
    inputs := inputs, outputs := [] }

/-- Day 9's `run_program` on a program image and a finite input stream. -/
def runProgram (program inputs : List Int) (fuel : Nat) :
    Option (Except RunError (List Int) × List Int) :=
  runFuel fuel (initState program inputs)

end Day9

namespace Day7

/-- The `ParameterModes` enum of `src/rust/2019/src/bin/7/main.rs`: this
earlier incarnation has no Relative mode. -/
inductive ParamMode where
  | position : ParamMode
  | immediate : ParamMode
deriving DecidableEq

/-- `ParameterModes::try_from` (day 7): digit 0 or 1, anything else (digit 2
included) is a fatal "Unknown parameter mode" error. -/
def parameterModeOfDigit (d : Nat) : Except RunError ParamMode :=
  if d = 0 then Except.ok ParamMode.position
  else if d = 1 then Except.ok ParamMode.immediate
  else Except.error (RunError.unknownParameterMode d)

/-- The `try_collect` of day 7's `get_parameter_modes`. -/
def collectModes : List Nat → Except RunError (List ParamMode)
  | [] => Except.ok []
  | d :: rest =>
    match parameterModeOfDigit d with
    | Except.error e => Except.error e
    | Except.ok m =>
      match collectModes rest with
      | Except.error e => Except.error e
      | Except.ok ms => Except.ok (m :: ms)

/-- `get_parameter_modes` (day 7). -/
def getParameterModes (opcode : Nat) : Except RunError (List ParamMode) :=
  collectModes (modeDigits opcode)

/-- The `get_param` closure of day 7's `run_program`. No Relative mode and no
memory growth: a write destination must be Position mode, a negative position
value is a fatal error, and a Position-mode read is bounds-checked ("Invalid
result index") rather than growing memory. The closure does not mutate the
memory, so only the parameter's value (or write address) is returned. -/
def getParam (program : List Int) (ip : Nat) (modes : List ParamMode)
    (param : Nat) (needWrite : Bool) : Except RunError Int :=
  match program.get? (ip + param + 1) with
  | none => Except.error RunError.parameterNotFound
  | some paramValue =>
    let paramMode := modes.getD param ParamMode.position
    if needWrite = true ∧ paramMode ≠ ParamMode.position then
      Except.error RunError.invalidWriteMode
    else
      match paramMode with
      | ParamMode.immediate => Except.ok paramValue
      | ParamMode.position =>
        if paramValue < 0 then Except.error (RunError.negativeAddress paramValue)
        else
          let idx := paramValue.toNat
          if needWrite then Except.ok paramValue
          else if idx < program.length then Except.ok ((program.get? idx).getD 0)
          else Except.error RunError.invalidResultIndex

/-- The state threaded through the day 7 `run_program` loop (no relative
base register in this incarnation). -/
structure VMState where
  program : List Int
  ip : Nat
  inputs : List Int
  outputs : List Int
deriving DecidableEq

/-- Outcome of one iteration of the day 7 `loop`. -/
inductive StepResult where
  | next : VMState → StepResult
  | halted : VMState → StepResult
  | fail : RunError → StepResult
deriving DecidableEq

/-- Writing `program[dst] = v` in the day 7 match arms: the memory never
grows, so an out-of-range destination is a Rust `Vec` index panic. -/
def writeMem (program : List Int) (dst : Nat) (v : Int) : Except RunError (List Int) :=
  if dst < program.length then Except.ok (program.set dst v)
  else Except.error RunError.indexOutOfBounds

/-- One iteration of day 7's `run_program` loop. Identical structure to the
day 9 loop except: no Relative mode, no opcode 9 (it falls into the unknown
opcode arm), no memory growth, and writes can hit an out-of-range index. -/
def step (st : VMState) : StepResult :=
  match st.program.get? st.ip with
  | none => StepResult.fail RunError.indexOutOfBounds
  | some opInt =>
    if opInt < 0 then StepResult.fail RunError.negativeOpcode
    else
      let opcode := opInt.toNat
      match getParameterModes opcode with
      | Except.error e => StepResult.fail e
      | Except.ok modes =>
        let op2 := opcode % 100
        if op2 = 1 ∨ op2 = 2 ∨ op2 = 7 ∨ op2 = 8 then
          match getParam st.program st.ip modes 0 false with
          | Except.error e => StepResult.fail e
          | Except.ok x =>
            match getParam st.program st.ip modes 1 false with
            | Except.error e => StepResult.fail e
            | Except.ok y =>
              match getParam st.program st.ip modes 2 true with
              | Except.error e => StepResult.fail e
              | Except.ok rawDst =>
                match writeMem st.program rawDst.toNat (Day9.binaryOpResult op2 x y) with
                | Except.error e => StepResult.fail e
                | Except.ok prog2 =>
                  StepResult.next { st with program := prog2, ip := st.ip + 4 }
        else if op2 = 5 ∨ op2 = 6 then
          match getParam st.program st.ip modes 0 false with
          | Except.error e => StepResult.fail e
          | Except.ok checkedValue =>
            match getParam st.program st.ip modes 1 false with
            | Except.error e => StepResult.fail e
            | Except.ok jumpInt =>
              if jumpInt < 0 then StepResult.fail RunError.negativeJump
              else
                if (if op2 = 5 then checkedValue ≠ 0 else checkedValue = 0) then
                  StepResult.next { st with ip := jumpInt.toNat }
                else
                  StepResult.next { st with ip := st.ip + 3 }
        else if op2 = 3 then
          match st.inputs with
          | [] => StepResult.fail RunError.missingInput
          | i :: rest =>
            match getParam st.program st.ip modes 0 true with
            | Except.error e => StepResult.fail e
            | Except.ok rawDst =>
              match writeMem st.program rawDst.toNat i with
              | Except.error e => StepResult.fail e
              | Except.ok prog2 =>
                StepResult.next { st with
                  program := prog2, inputs := rest, ip := st.ip + 2 }
        else if op2 = 4 then
          match getParam st.program st.ip modes 0 false with
          | Except.error e => StepResult.fail e
          | Except.ok v =>
            StepResult.next { st with outputs := st.outputs ++ [v], ip := st.ip + 2 }
        else if op2 = 99 then
          StepResult.halted st
        else StepResult.fail (RunError.unknownOpcode op2)

/-- Day 7's `run_program` loop with explicit fuel (see `Day9.runFuel`). -/
def runFuel : Nat → VMState → Option (Except RunError (List Int) × List Int)
  | 0, _ => none
  | fuel + 1, st =>
    match step st with
    | StepResult.next st2 => runFuel fuel st2
    | StepResult.halted st2 => some (Except.ok st2.program, st2.outputs)
    | StepResult.fail e => some (Except.error e, st.outputs)

/-- Day 7's `run_program` on a program image and a finite input stream. -/
def runProgram (program inputs : List Int) (fuel : Nat) :
    Option (Except RunError (List Int) × List Int) :=
  runFuel fuel { program := program, ip := 0, inputs := inputs, outputs := [] }

/-- Failure of one amplifier stage of `find_max_thruster_val`: either the VM
itself failed, or it halted without emitting any output ("Amplifier i gave no
output on phase settings ..."), or — an artifact of the fuel-based model — it
was not given enough fuel to finish. -/
inductive AmpError where
  | vm : RunError → AmpError
  | noOutput : AmpError
  | outOfFuel : AmpError
deriving DecidableEq

/-- One amplifier stage of the non-feedback pipeline: load a fresh copy of
the program, feed it exactly the phase setting followed by the previous
stage's output (`stream::iter([phase_settings[i] as isize, prev_output])`),
run it to completion, and take the last emitted output. -/
def ampStage (program : List Int) (fuel : Nat) (phase prev : Int) :
    Except AmpError Int :=
  match runProgram program [phase, prev] fuel with
  | none => Except.error AmpError.outOfFuel
  | some (Except.error e, _) => Except.error (AmpError.vm e)
  | some (Except.ok _, outputs) =>
    match outputs.getLast? with
    | none => Except.error AmpError.noOutput
    | some o => Except.ok o

/-- The `try_fold` at the heart of `find_max_thruster_val`: run the stages
strictly in sequence, each consuming the previous stage's output (the seed
for the first stage), short-circuiting on the first failing stage. -/
def chainAmps (program : List Int) (fuel : Nat) :
    List Int → Int → Except AmpError Int
  | [], prev => Except.ok prev
  | phase :: rest, prev =>
    match ampStage program fuel phase prev with
    | Except.error e => Except.error e
    | Except.ok out => chainAmps program fuel rest out

/-- The per-instance pure function of one amplifier, as the spec describes
it: phase setting and input value in, last emitted output out. -/
def ampFun (program : List Int) (fuel : Nat) (phase : Int) :
    Int → Except AmpError Int :=
  fun x => ampStage program fuel phase x

/-- Modelled from the spec: "manually composing the per-instance pure
function N times" — the left-to-right Kleisli composition of a list of
fallible functions, built by `foldr` and only then applied to the seed. -/
def composedFun (fs : List (Int → Except AmpError Int)) :
    Int → Except AmpError Int :=
  fs.foldr (fun f g => fun x => (f x).bind g) Except.ok

/-- Modelled from the spec: the manual composition of the per-instance pure
functions of the given phase settings, applied in pipeline order. -/
def composeAmps (program : List Int) (fuel : Nat) (phases : List Int) :
    Int → Except AmpError Int :=
  composedFun (phases.map (ampFun program fuel))

end Day7

namespace Day9

theorem growMem_length (program : List Int) (idx : Nat)
    (h : program.length ≤ idx) : (growMem program idx).length = idx + 1 := by
  unfold growMem
  rw [if_pos h, List.length_append, List.length_replicate]
  omega

theorem growMem_get?_lt (program : List Int) (idx j : Nat)
    (h : program.length ≤ idx) (hj : j < program.length) :
    (growMem program idx).get? j = program.get? j := by
  unfold growMem
  rw [if_pos h]
  exact List.get?_append hj

theorem growMem_get?_zero (program : List Int) (idx j : Nat)
    (hlen : program.length ≤ j) (hj : j ≤ idx) :
    (growMem program idx).get? j = some 0 := by
  unfold growMem
  rw [if_pos (le_trans hlen hj), List.get?_append_right hlen,
    List.get?_eq_getElem?, List.getElem?_replicate, if_pos (by omega)]

theorem runFuel_fail_of_step (st : VMState) (e : RunError) (fuel : Nat)
    (h : step st = StepResult.fail e) :
    runFuel (fuel + 1) st = some (Except.error e, st.outputs) := by
  simp only [runFuel, h]

/-- C1: a parameter read (Position or Relative mode) resolving to an address
`idx` at or beyond the current memory length grows memory to length
`idx + 1`, returns 0 (the never-written cell's value), keeps every cell
below the old length unchanged, and fills every new cell with 0. -/
theorem getParam_oob_read_grows_zero
    (program : List Int) (ip : Nat) (rb : Int) (modes : List ParamMode)
    (param : Nat) (pv : Int) (idx : Nat)
    (hpv : program.get? (ip + param + 1) = some pv)
    (hmode : modes.getD param ParamMode.position ≠ ParamMode.immediate)
    (hnn : 0 ≤ rawIndex rb (modes.getD param ParamMode.position) pv)
    (hidx : idx = (rawIndex rb (modes.getD param ParamMode.position) pv).toNat)
    (hoob : program.length ≤ idx) :
    getParam program ip rb modes param false = Except.ok (0, growMem program idx)
    ∧ (growMem program idx).length = idx + 1
    ∧ (∀ j, j < program.length → (growMem program idx).get? j = program.get? j)
    ∧ (∀ j, program.length ≤ j → j ≤ idx → (growMem program idx).get? j = some 0) := by
  refine ⟨?_, growMem_length program idx hoob,
    fun j hj => growMem_get?_lt program idx j hoob hj,
    fun j h1 h2 => growMem_get?_zero program idx j h1 h2⟩
  have hval : ((growMem program idx).get? idx).getD 0 = 0 := by
    rw [growMem_get?_zero program idx idx hoob (le_refl idx)]
    rfl
  cases hm : modes.getD param ParamMode.position with
  | immediate => exact absurd hm hmode
  | position =>
    rw [hm] at hnn hidx
    simp only [getParam, hpv, hm]
    rw [if_neg (by simp)]
    rw [if_neg (not_lt.mpr hnn), ← hidx, hval]
    simp
  | relative =>
    rw [hm] at hnn hidx
    simp only [getParam, hpv, hm]
    rw [if_neg (by simp)]
    rw [if_neg (not_lt.mpr hnn), ← hidx, hval]
    simp

/-- C5: a parameter resolved in Position or Relative mode whose computed raw
address is negative makes `get_param` fail with the NegativeAddress error
(for reads and writes alike), and any step that fails ends the run at once
with that error — no recovery. -/
theorem negative_address_fatal
    (program : List Int) (ip : Nat) (rb : Int) (modes : List ParamMode)
    (param : Nat) (needWrite : Bool) (pv : Int)
    (hpv : program.get? (ip + param + 1) = some pv)
    (hmode : modes.getD param ParamMode.position ≠ ParamMode.immediate)
    (hneg : rawIndex rb (modes.getD param ParamMode.position) pv < 0) :
    getParam program ip rb modes param needWrite =
      Except.error (RunError.negativeAddress
        (rawIndex rb (modes.getD param ParamMode.position) pv))
    ∧ ∀ st fuel e, step st = StepResult.fail e →
        runFuel (fuel + 1) st = some (Except.error e, st.outputs) := by
  refine ⟨?_, fun st fuel e h => runFuel_fail_of_step st e fuel h⟩
  cases hm : modes.getD param ParamMode.position with
  | immediate => exact absurd hm hmode
  | position =>
    rw [hm] at hneg
    simp only [getParam, hpv, hm]
    rw [if_neg (by simp)]
    rw [if_pos hneg]
  | relative =>
    rw [hm] at hneg
    simp only [getParam, hpv, hm]
    rw [if_neg (by simp)]
    rw [if_pos hneg]

/-- C6: a write-destination parameter in Immediate mode makes `get_param`
fail with the InvalidWriteMode error, while a write destination in Position
or Relative mode passes that check (its result is never InvalidWriteMode);
any failing step ends the run at once with its error. -/
theorem write_mode_check
    (program : List Int) (ip : Nat) (rb : Int) (modes : List ParamMode)
    (param : Nat) (pv : Int)
    (hpv : program.get? (ip + param + 1) = some pv) :
    (modes.getD param ParamMode.position = ParamMode.immediate →
      getParam program ip rb modes param true =
        Except.error RunError.invalidWriteMode)
    ∧ (modes.getD param ParamMode.position ≠ ParamMode.immediate →
      getParam program ip rb modes param true ≠
        Except.error RunError.invalidWriteMode)
    ∧ ∀ st fuel, step st = StepResult.fail RunError.invalidWriteMode →
        runFuel (fuel + 1) st =
          some (Except.error RunError.invalidWriteMode, st.outputs) := by
  refine ⟨?_, ?_, fun st fuel h => runFuel_fail_of_step st _ fuel h⟩
  · intro hm
    simp only [getParam, hpv, hm]
    rw [if_pos ⟨trivial, trivial⟩]
  · intro hmode
    cases hm : modes.getD param ParamMode.position with
    | immediate => exact absurd hm hmode
    | position =>
      simp only [getParam, hpv, hm]
      rw [if_neg (by simp)]
      by_cases hneg : rawIndex rb ParamMode.position pv < 0
      · rw [if_pos hneg]; simp
      · rw [if_neg hneg]; simp
    | relative =>
      simp only [getParam, hpv, hm]
      rw [if_neg (by simp)]
      by_cases hneg : rawIndex rb ParamMode.relative pv < 0
      · rw [if_pos hneg]; simp
      · rw [if_neg hneg]; simp

theorem runFuel_mono (f : Nat) (st : VMState)
    (r : Except RunError (List Int) × List Int)
    (h : runFuel f st = some r) :
    ∀ g, f ≤ g → runFuel g st = some r := by
  induction f generalizing st with
  | zero => simp [runFuel] at h
  | succ n ih =>
    intro g hg
    obtain ⟨m, rfl⟩ : ∃ m, g = m + 1 := ⟨g - 1, by omega⟩
    cases hstep : step st with
    | next st2 =>
      simp only [runFuel, hstep] at h ⊢
      exact ih st2 h m (by omega)
    | halted st2 =>
      simp only [runFuel, hstep] at h ⊢
      exact h
    | fail e =>
      simp only [runFuel, hstep] at h ⊢
      exact h

/-- C2 (amended): when execution brings the instruction pointer to an index
at or beyond the current memory length, the opcode fetch
`program[instruction_pointer]` does NOT grow memory — it is an out-of-range
`Vec` index, a Rust panic that aborts the run immediately (modelled by the
`indexOutOfBounds` error), with the memory not extended and no opcode-0 step
performed. -/
theorem step_oob_fetch_panics (st : VMState) (h : st.program.length ≤ st.ip) :
    step st = StepResult.fail RunError.indexOutOfBounds
    ∧ ∀ fuel, runFuel (fuel + 1) st =
        some (Except.error RunError.indexOutOfBounds, st.outputs) := by
  have hget : st.program.get? st.ip = none := List.get?_len_le h
  have hstep : step st = StepResult.fail RunError.indexOutOfBounds := by
    simp only [step, hget]
  exact ⟨hstep, fun fuel => runFuel_fail_of_step st _ fuel hstep⟩

/-- C2 (counterexample): running `[104, 0]` emits one output and then moves
the instruction pointer to 2, which is at the end of memory; the opcode
fetch there does not transparently extend memory and complete with opcode 0
as the claim states — the run aborts with the out-of-range index panic. -/
theorem run_oob_fetch_cex :
    runProgram [104, 0] [] 2 =
      some (Except.error RunError.indexOutOfBounds, [0])
    ∧ RunError.indexOutOfBounds ≠ RunError.unknownOpcode 0 := by
  exact ⟨rfl, by decide⟩

/-- C3 (counterexample): the program `[109, 1, 204, -1, 99]` with empty
input halts normally but its single output is 109 — the program's FIRST
cell (the relative base 1 plus the parameter −1 addresses cell 0) — not the
second cell's value 1 as the claim states. -/
theorem relative_example_cex :
    runProgram [109, 1, 204, -1, 99] [] 10 =
      some (Except.ok [109, 1, 204, -1, 99], [109])
    ∧ ([109] : List Int) ≠ [1] := by
  exact ⟨rfl, by decide⟩

/-- C3 (amended): running `[109, 1, 204, -1, 99]` with an empty input source
halts normally, leaves memory unchanged, and emits exactly one output whose
value equals the program's first cell, i.e. 109. -/
theorem relative_example_outputs_first_cell :
    runProgram [109, 1, 204, -1, 99] [] 10 =
      some (Except.ok [109, 1, 204, -1, 99], [109])
    ∧ ([109, 1, 204, -1, 99] : List Int).get? 0 = some 109 := by
  exact ⟨rfl, rfl⟩

/-- C4 (amended): when the cell fetched as an instruction is non-negative,
its parameter-mode digits all decode (digits 0, 1, 2 only), and its residue
mod 100 is not one of {1,…,9,99}, the run fails with the UnknownOpcode error
carrying that residue, immediately and with no further mutation: the run
ends at this very step whatever fuel remains, leaving the outputs (and, the
step producing no successor state, the memory) as they were. -/
theorem unknown_opcode_error (st : VMState) (c : Int) (modes : List ParamMode)
    (hc : st.program.get? st.ip = some c)
    (hnn : ¬ c < 0)
    (hmodes : getParameterModes c.toNat = Except.ok modes)
    (hbad : c.toNat % 100 ∉ [1, 2, 3, 4, 5, 6, 7, 8, 9, 99]) :
    step st = StepResult.fail (RunError.unknownOpcode (c.toNat % 100))
    ∧ ∀ fuel, runFuel (fuel + 1) st =
        some (Except.error (RunError.unknownOpcode (c.toNat % 100)), st.outputs) := by
  have hne : c.toNat % 100 ≠ 1 ∧ c.toNat % 100 ≠ 2 ∧ c.toNat % 100 ≠ 3 ∧
      c.toNat % 100 ≠ 4 ∧ c.toNat % 100 ≠ 5 ∧ c.toNat % 100 ≠ 6 ∧
      c.toNat % 100 ≠ 7 ∧ c.toNat % 100 ≠ 8 ∧ c.toNat % 100 ≠ 9 ∧
      c.toNat % 100 ≠ 99 := by
    simpa using hbad
  obtain ⟨n1, n2, n3, n4, n5, n6, n7, n8, n9, n99⟩ := hne
  have hstep : step st = StepResult.fail (RunError.unknownOpcode (c.toNat % 100)) := by
    simp only [step, hc, hmodes]
    rw [if_neg hnn]
    rw [if_neg (by simp [n1, n2, n7, n8])]
    rw [if_neg (by simp [n5, n6])]
    rw [if_neg n3, if_neg n4, if_neg n9, if_neg n99]
  exact ⟨hstep, fun fuel => runFuel_fail_of_step st _ fuel hstep⟩

/-- C4 (counterexample): the cell 300 has residue 0 mod 100, which is
outside the opcode table, yet the run does not fail with an UnknownOpcode
error as the claim states: decoding the parameter modes fails first, on the
hundreds digit 3, so the error is UnknownParameterMode. -/
theorem unknown_opcode_masked_cex :
    runProgram [300] [] 2 =
      some (Except.error (RunError.unknownParameterMode 3), [])
    ∧ (300 : Nat) % 100 = 0
    ∧ RunError.unknownParameterMode 3 ≠ RunError.unknownOpcode 0 := by
  exact ⟨rfl, rfl, by decide⟩

/-- C10: the interpreter is deterministic — two runs of the same program on
the same input sequence that both finish (with any amounts of fuel) produce
the same outcome: the same success-or-error result, with the same final
memory on success, and the same outputs in the same order. -/
theorem run_deterministic (program inputs : List Int) (f1 f2 : Nat)
    (r1 r2 : Except RunError (List Int) × List Int)
    (h1 : runProgram program inputs f1 = some r1)
    (h2 : runProgram program inputs f2 = some r2) : r1 = r2 := by
  unfold runProgram at h1 h2
  rcases le_total f1 f2 with h | h
  · have h12 := runFuel_mono f1 _ r1 h1 f2 h
    rw [h12] at h2
    exact Option.some.inj h2
  · have h21 := runFuel_mono f2 _ r2 h2 f1 h
    rw [h21] at h1
    exact (Option.some.inj h1).symm

theorem parameterModeOfDigit_error (d : Nat) (hd : 2 < d) :
    parameterModeOfDigit d = Except.error (RunError.unknownParameterMode d) := by
  unfold parameterModeOfDigit
  rw [if_neg (by omega), if_neg (by omega), if_neg (by omega)]

theorem collectModes_error_of_bad (l : List Nat) (d : Nat)
    (hd : d ∈ l) (hbad : 2 < d) :
    ∃ d2, 2 < d2 ∧
      collectModes l = Except.error (RunError.unknownParameterMode d2) := by
  induction l with
  | nil => cases hd
  | cons h t ih =>
    by_cases hh : 2 < h
    · exact ⟨h, hh, by simp [collectModes, parameterModeOfDigit_error h hh]⟩
    · have hdt : d ∈ t := by
        rcases List.mem_cons.mp hd with rfl | hdt
        · omega
        · exact hdt
      obtain ⟨d2, hd2, herr⟩ := ih hdt
      refine ⟨d2, hd2, ?_⟩
      have hle : h ≤ 2 := by omega
      interval_cases h
      all_goals simp [collectModes, parameterModeOfDigit, herr]

/-- C9: if the cell fetched as an instruction is non-negative and its
decimal digits above the low two (the parameter-mode digits) contain a digit
greater than 2, decoding fails with an UnknownParameterMode error and the
run ends at that very instruction — even when the opcode residue is valid
and the offending parameter position would never be used. In particular the
program `[399]` (opcode residue 99, i.e. halt) fails instead of halting. -/
theorem bad_mode_digit_decode_error (st : VMState) (c : Int) (d : Nat)
    (hc : st.program.get? st.ip = some c)
    (hnn : ¬ c < 0)
    (hd : d ∈ modeDigits c.toNat)
    (hbad : 2 < d) :
    (∃ d2, 2 < d2
      ∧ getParameterModes c.toNat =
          Except.error (RunError.unknownParameterMode d2)
      ∧ step st = StepResult.fail (RunError.unknownParameterMode d2)
      ∧ ∀ fuel, runFuel (fuel + 1) st =
          some (Except.error (RunError.unknownParameterMode d2), st.outputs))
    ∧ runProgram [399] [] 1 =
        some (Except.error (RunError.unknownParameterMode 3), [])
    ∧ (399 : Nat) % 100 = 99 := by
  refine ⟨?_, rfl, rfl⟩
  obtain ⟨d2, hd2, herr⟩ := collectModes_error_of_bad (modeDigits c.toNat) d hd hbad
  have hmodes : getParameterModes c.toNat =
      Except.error (RunError.unknownParameterMode d2) := herr
  have hstep : step st = StepResult.fail (RunError.unknownParameterMode d2) := by
    simp only [step, hc, hmodes]
    rw [if_neg hnn]
  exact ⟨d2, hd2, hmodes, hstep, fun fuel => runFuel_fail_of_step st _ fuel hstep⟩

theorem getParam_oob_read_grows_zero_witness :
    getParam [0, 7] 0 0 [] 0 false =
      Except.ok (0, [0, 7, 0, 0, 0, 0, 0, 0]) :=
  (getParam_oob_read_grows_zero [0, 7] 0 0 [] 0 7 7 rfl (by decide)
    (by decide) rfl (by decide)).1

theorem step_oob_fetch_panics_witness :
    step (initState [] []) = StepResult.fail RunError.indexOutOfBounds :=
  (step_oob_fetch_panics (initState [] []) (by decide)).1

theorem unknown_opcode_error_witness :
    step (initState [0] []) = StepResult.fail (RunError.unknownOpcode 0) :=
  (unknown_opcode_error (initState [0] []) 0 [] rfl (by decide) rfl
    (by decide)).1

theorem negative_address_fatal_witness :
    getParam [0, -5] 0 0 [] 0 false =
      Except.error (RunError.negativeAddress (-5)) :=
  (negative_address_fatal [0, -5] 0 0 [] 0 false (-5) rfl (by decide)
    (by decide)).1

theorem write_mode_check_witness :
    getParam [0, 3] 0 0 [ParamMode.immediate] 0 true =
      Except.error RunError.invalidWriteMode :=
  (write_mode_check [0, 3] 0 0 [ParamMode.immediate] 0 3 rfl).1 rfl

theorem bad_mode_digit_decode_error_witness :
    runProgram [399] [] 1 =
      some (Except.error (RunError.unknownParameterMode 3), [])
    ∧ (399 : Nat) % 100 = 99 :=
  (bad_mode_digit_decode_error (initState [399] []) 399 3 rfl (by decide)
    (by decide) (by decide)).2

theorem run_deterministic_witness :
    runProgram [99] [] 1 = some (Except.ok [99], [])
    ∧ runProgram [99] [] 2 = some (Except.ok [99], [])
    ∧ ((Except.ok [99], []) : Except RunError (List Int) × List Int) =
        (Except.ok [99], []) :=
  ⟨rfl, rfl, run_deterministic [99] [] 1 2 _ _ rfl rfl⟩

end Day9

namespace Day7

theorem chainAmps_eq_composeAmps (program : List Int) (fuel : Nat)
    (phases : List Int) : ∀ seed : Int,
    chainAmps program fuel phases seed = composeAmps program fuel phases seed := by
  induction phases with
  | nil => intro seed; rfl
  | cons ph rest ih =>
    intro seed
    show chainAmps program fuel (ph :: rest) seed =
      (ampFun program fuel ph seed).bind (composedFun (rest.map (ampFun program fuel)))
    cases h : ampStage program fuel ph seed with
    | error e =>
      simp only [chainAmps, ampFun, h, Except.bind]
    | ok o =>
      simp only [chainAmps, ampFun, h, Except.bind]
      exact ih o

/-- C7: for every program and every sequence of phase settings, the
non-feedback pipeline of `find_max_thruster_val` — independently loaded
instances run strictly in sequence via `try_fold`, each fed exactly its
phase setting then the previous stage's output (seed 0 for the first
stage), each contributing its last emitted output — computes the same final
value as first composing the per-instance pure function once per phase
setting and then applying the composite to the seed 0. -/
theorem nonfeedback_pipeline_eq_composition (program : List Int)
    (fuel : Nat) (phases : List Int) :
    chainAmps program fuel phases 0 = composeAmps program fuel phases 0 :=
  chainAmps_eq_composeAmps program fuel phases 0

end Day7

end Intcode
